import Mathlib

/-!
Verification development for the RUNSTR-DVM core: the running-notes field
extractor (`src/tasks/runningNotes.js`), the activity-summary aggregator
(`src/tasks/activitySummary.js`) and the bounded record stores of the Nostr
DVM (`src/nostr/nostrDVM.js`).  JS strings are modelled as `List Char`,
float64 arithmetic by exact rationals, and each regular expression of the
source by a dedicated character-level matcher with the regex engine's
leftmost-position, ordered-alternation, greedy semantics.
-/

namespace RunstrDVM

/-- The whitespace characters matched by the JS regex class `\s` that can occur
in the note texts (ASCII part). -/
def isJsSpace (c : Char) : Bool :=
  c = ' ' || c = '\t' || c = '\n' || c = '\r' || c = '\x0b' || c = '\x0c'

/-- JS `parseInt` on a capture of a `\d+` group: the decimal value of a
nonempty digit string. -/
def parseNatDigits (ds : List Char) : Nat :=
  ds.foldl (fun acc c => acc * 10 + (c.toNat - '0'.toNat)) 0

/-- JS `parseFloat` on a capture of shape `\d+(\.\d+)?`, as an exact rational. -/
def parseFloatCapture (intPart : List Char) (fracPart : Option (List Char)) : ℚ :=
  (parseNatDigits intPart : ℚ) +
    match fracPart with
    | none => 0
    | some ds => (parseNatDigits ds : ℚ) / ((10 : ℚ) ^ ds.length)

/-- Case-insensitive match of one lowercase literal `pat` against a prefix of the
input; returns the matched slice of the input (original case) and the rest. -/
def matchLitCI : List Char → List Char → Option (List Char × List Char)
  | [], s => some ([], s)
  | _ :: _, [] => none
  | p :: ps, c :: cs =>
    if c.toLower = p then
      match matchLitCI ps cs with
      | some (cap, r) => some (c :: cap, r)
      | none => none
    else none

/-- Ordered alternation of case-insensitive literals, as in a regex group
`(w1|w2|...)` under the `i` flag: the first alternative that matches wins. -/
def matchAltCI : List (List Char) → List Char → Option (List Char × List Char)
  | [], _ => none
  | alt :: alts, s =>
    match matchLitCI alt s with
    | some res => some res
    | none => matchAltCI alts s

/-- JS `String.prototype.padStart(2, '0')`. -/
def padTwoStr (s : String) : String :=
  if s.length < 2 then String.mk (List.replicate (2 - s.length) '0') ++ s else s

/-- `n.toString().padStart(2, '0')` for a nonnegative number. -/
def padTwo (n : Nat) : String :=
  padTwoStr (toString n)

/-! ### Field extractor (`src/tasks/runningNotes.js`) -/

/-- The ordered unit alternation of
`DISTANCE_REGEX = /(\d+(?:\.\d+)?)\s*(km|mi|mile|miles|kilometers)/i`. -/
def distanceUnitWords : List (List Char) :=
  [['k', 'm'], ['m', 'i'], "mile".data, "miles".data, "kilometers".data]

/-- One attempt of `DISTANCE_REGEX` anchored at the start of the input: greedy
`\d+`, optional fraction — with the engine's backtracking that retries without
the fraction when no unit follows it — then `\s*` and the unit alternation.
Returns (integer digits, fraction digits?, captured unit slice). -/
def matchDistanceAt (s : List Char) : Option (List Char × Option (List Char) × List Char) :=
  let (ds, r1) := s.span Char.isDigit
  if ds.isEmpty then none
  else
    let tryUnit : Option (List Char) → List Char →
        Option (List Char × Option (List Char) × List Char) :=
      fun frac rest =>
        match matchAltCI distanceUnitWords (rest.dropWhile isJsSpace) with
        | some (cap, _) => some (ds, frac, cap)
        | none => none
    match r1 with
    | '.' :: r2 =>
      let (ds2, r3) := r2.span Char.isDigit
      if ds2.isEmpty then tryUnit none r1
      else
        match tryUnit (some ds2) r3 with
        | some res => some res
        | none => tryUnit none r1
    | _ => tryUnit none r1

/-- `content.match(DISTANCE_REGEX)`: the leftmost match. -/
def findDistance : List Char → Option (List Char × Option (List Char) × List Char)
  | [] => none
  | c :: rest =>
    match matchDistanceAt (c :: rest) with
    | some m => some m
    | none => findDistance rest

/-- The stored `extractedData.distance` record. -/
structure Distance where
  value : ℚ
  unit : String
  deriving Repr, DecidableEq

/-- Builds the distance field: `parseFloat(match[1])` and
`match[2].toLowerCase()` (no further normalization in the source). -/
def mkDistance (m : List Char × Option (List Char) × List Char) : Distance :=
  { value := parseFloatCapture m.1 m.2.1
    unit := String.mk (m.2.2.map Char.toLower) }

/-- One match of `TIME_REGEX`, identified by which of the five alternatives
matched, carrying the captured digit strings and, for the word alternatives,
the captured unit-word slice. -/
inductive TimeMatch where
  | hms (a b c : List Char)
  | ms (a b : List Char)
  | hours (n : List Char) (w : List Char)
  | minutes (n : List Char) (w : List Char)
  | seconds (n : List Char) (w : List Char)
  deriving Repr, DecidableEq

/-- Ordered alternation `(h|hr|hrs|hour|hours)` of `TIME_REGEX`. -/
def hourWords : List (List Char) :=
  [['h'], "hr".data, "hrs".data, "hour".data, "hours".data]

/-- Ordered alternation `(m|min|mins|minute|minutes)` of `TIME_REGEX`. -/
def minuteWords : List (List Char) :=
  [['m'], "min".data, "mins".data, "minute".data, "minutes".data]

/-- Ordered alternation `(s|sec|secs|second|seconds)` of `TIME_REGEX`. -/
def secondWords : List (List Char) :=
  [['s'], "sec".data, "secs".data, "second".data, "seconds".data]

/-- Anchored match of `(\d+):(\d+)`, the shared head of the first two
`TIME_REGEX` alternatives and of `PACE_REGEX`. -/
def matchColonPair (s : List Char) : Option (List Char × List Char × List Char) :=
  let (a, r1) := s.span Char.isDigit
  if a.isEmpty then none
  else
    match r1 with
    | ':' :: r2 =>
      let (b, r3) := r2.span Char.isDigit
      if b.isEmpty then none else some (a, b, r3)
    | _ => none

/-- The first two alternatives of
`TIME_REGEX = /(\d+):(\d+):(\d+)|(\d+):(\d+)|(\d+)\s*(h|hr|hrs|hour|hours)|(\d+)\s*(m|min|mins|minute|minutes)|(\d+)\s*(s|sec|secs|second|seconds)/ig`
anchored at the start of the input: `H:MM:SS`, else `MM:SS`.  Each match
returns the remaining input after it (for the `g`-flag scan). -/
def matchTimeColon (s : List Char) : Option (TimeMatch × List Char) :=
  match matchColonPair s with
  | none => none
  | some (a, b, r3) =>
    match r3 with
    | ':' :: r4 =>
      if (r4.span Char.isDigit).1.isEmpty then some (.ms a b, r3)
      else some (.hms a b (r4.span Char.isDigit).1, (r4.span Char.isDigit).2)
    | _ => some (.ms a b, r3)

/-- The word alternatives 3-5 of `TIME_REGEX`: `(\d+)\s*` followed by the
hour-, minute- or second-word alternation, tried in that order. -/
def matchTimeWord (s : List Char) : Option (TimeMatch × List Char) :=
  if (s.span Char.isDigit).1.isEmpty then none
  else
    match matchAltCI hourWords ((s.span Char.isDigit).2.dropWhile isJsSpace) with
    | some (w, r) => some (.hours (s.span Char.isDigit).1 w, r)
    | none =>
      match matchAltCI minuteWords ((s.span Char.isDigit).2.dropWhile isJsSpace) with
      | some (w, r) => some (.minutes (s.span Char.isDigit).1 w, r)
      | none =>
        match matchAltCI secondWords ((s.span Char.isDigit).2.dropWhile isJsSpace) with
        | some (w, r) => some (.seconds (s.span Char.isDigit).1 w, r)
        | none => none

/-- One attempt of the full alternation: the colon alternatives fail exactly
when `(\d+):(\d+)` does not match, in which case the word alternatives are
tried. -/
def matchTimeAt (s : List Char) : Option (TimeMatch × List Char) :=
  match matchTimeColon s with
  | some res => some res
  | none => matchTimeWord s

/-- `[...content.matchAll(TIME_REGEX)]`: the global scan, resuming after each
match and advancing one character past failing positions. Every match consumes
at least one character, so fuel equal to the input length suffices. -/
def timeScan : Nat → List Char → List TimeMatch
  | 0, _ => []
  | _, [] => []
  | fuel + 1, c :: rest =>
    match matchTimeAt (c :: rest) with
    | some (m, r) => m :: timeScan fuel r
    | none => timeScan fuel rest

/-- First letter test `w.toLowerCase().startsWith(c)` on a captured unit word. -/
def startsWithLower (w : List Char) (c : Char) : Bool :=
  match w with
  | [] => false
  | a :: _ => a.toLower = c

/-- The body of the source's `for (const match of timeMatches)` accumulation.
The capture-presence tests of the source (`match[1] && match[2] && match[3]`
etc., always true on the captured nonempty digit strings of the alternative
that matched) select the alternative; the `startsWith` tests re-check the
first letter of the captured unit word exactly as written. -/
def addMatchSeconds (total : Nat) (m : TimeMatch) : Nat :=
  match m with
  | .hms a b c =>
    total + parseNatDigits a * 3600 + parseNatDigits b * 60 + parseNatDigits c
  | .ms a b => total + parseNatDigits a * 60 + parseNatDigits b
  | .hours n w => if startsWithLower w 'h' then total + parseNatDigits n * 3600 else total
  | .minutes n w => if startsWithLower w 'm' then total + parseNatDigits n * 60 else total
  | .seconds n w => if startsWithLower w 's' then total + parseNatDigits n else total

/-- The stored `extractedData.time` record. -/
structure TimeData where
  hours : Nat
  minutes : Nat
  seconds : Nat
  totalSeconds : Nat
  formatted : String
  deriving Repr, DecidableEq

/-- Builds the time field from the scanned matches: sum all matches, then the
`HH:MM:SS` decomposition with `Math.floor` (integer division on nonnegative
values) and `padStart(2, '0')`. -/
def mkTimeData (tms : List TimeMatch) : TimeData :=
  let totalSeconds := tms.foldl addMatchSeconds 0
  let hours := totalSeconds / 3600
  let minutes := (totalSeconds % 3600) / 60
  let seconds := totalSeconds % 60
  { hours, minutes, seconds, totalSeconds
    formatted := padTwo hours ++ ":" ++ padTwo minutes ++ ":" ++ padTwo seconds }

/-- The ordered unit alternation of
`PACE_REGEX = /(\d+):(\d+)(?:\/|\s+per\s+)(km|mi|mile|miles|kilometer|kilometers)/i`. -/
def paceUnitWords : List (List Char) :=
  [['k', 'm'], ['m', 'i'], "mile".data, "miles".data, "kilometer".data, "kilometers".data]

/-- One attempt of `PACE_REGEX` anchored at the start of the input: `(\d+):(\d+)`,
then the separator group — `/`, or `\s+per\s+` when the input does not continue
with `/` — then the unit alternation. Returns (minute digits, second digits,
captured unit slice). -/
def matchPaceAt (s : List Char) : Option (List Char × List Char × List Char) :=
  match matchColonPair s with
  | none => none
  | some (a, b, r3) =>
    match r3 with
    | '/' :: r4 =>
      (match matchAltCI paceUnitWords r4 with
       | some (cap, _) => some (a, b, cap)
       | none => none)
    | _ =>
      let (sp1, r4) := r3.span isJsSpace
      if sp1.isEmpty then none
      else
        match matchLitCI "per".data r4 with
        | none => none
        | some (_, r5) =>
          let (sp2, r6) := r5.span isJsSpace
          if sp2.isEmpty then none
          else
            match matchAltCI paceUnitWords r6 with
            | some (cap, _) => some (a, b, cap)
            | none => none

/-- `content.match(PACE_REGEX)`: the leftmost match. -/
def findPace : List Char → Option (List Char × List Char × List Char)
  | [] => none
  | c :: rest =>
    match matchPaceAt (c :: rest) with
    | some m => some m
    | none => findPace rest

/-- The stored `extractedData.pace` / `extractedData.calculatedPace` record. -/
structure Pace where
  minutes : Int
  seconds : Int
  unit : String
  formatted : String
  deriving Repr, DecidableEq

/-- Builds the explicit pace field: the unit is `'km'` exactly when the captured
word, lowercased, starts with the two letters `km`, and `'mi'` otherwise —
exactly the source's `paceMatch[3].toLowerCase().startsWith('km')` test. -/
def mkPace (m : List Char × List Char × List Char) : Pace :=
  let u := if (m.2.2.map Char.toLower).take 2 = ['k', 'm'] then "km" else "mi"
  { minutes := (parseNatDigits m.1 : Int)
    seconds := (parseNatDigits m.2.1 : Int)
    unit := u
    formatted := String.mk m.1 ++ ":" ++ padTwoStr (String.mk m.2.1) ++ "/" ++ u }

/-- Builds `calculatedPace`: `time.totalSeconds / distance.value` with
`Math.floor` for the minute part and `Math.floor` of the JS `% 60` remainder
for the second part (the quotient is nonnegative, so `x % 60 = x - 60⌊x/60⌋`).
Rational division by zero yields 0 where JS float64 yields Infinity. -/
def mkCalculatedPace (d : Distance) (t : TimeData) : Pace :=
  let paceInSeconds : ℚ := (t.totalSeconds : ℚ) / d.value
  let paceMinutes : Int := ⌊paceInSeconds / 60⌋
  let paceSeconds : Int := ⌊paceInSeconds - 60 * ⌊paceInSeconds / 60⌋⌋
  { minutes := paceMinutes
    seconds := paceSeconds
    unit := d.unit
    formatted := toString paceMinutes ++ ":" ++ padTwoStr (toString paceSeconds) ++ "/" ++ d.unit }

/-- The distance/duration/pace portion of `extractedData`. The elevation, heart
rate, weather and mood extractions of the source read none of these fields and
write none of them; they are independent and omitted here. -/
structure MeasurementSet where
  distance : Option Distance
  time : Option TimeData
  pace : Option Pace
  calculatedPace : Option Pace
  deriving Repr, DecidableEq

/-- The extraction body of `runningNotesTask`: distance (first match), time
(all matches summed), pace (first match), and the derived pace computed only
when distance and time are present and explicit pace is absent. -/
def extractData (content : List Char) : MeasurementSet :=
  let distance := (findDistance content).map mkDistance
  let tms := timeScan content.length content
  let time := if tms = [] then none else some (mkTimeData tms)
  let pace := (findPace content).map mkPace
  let calculatedPace :=
    match distance, time, pace with
    | some d, some t, none => some (mkCalculatedPace d t)
    | _, _, _ => none
  { distance, time, pace, calculatedPace }

/-- `runningNotesTask` (src/tasks/runningNotes.js): rejects falsy content (the
empty string), otherwise extracts. -/
def runningNotesTask (content : String) : Except String MeasurementSet :=
  if content = "" then .error "No content provided to parse"
  else .ok (extractData content.data)

/-! ### Bounded record stores (`src/nostr/nostrDVM.js`) -/

/-- An inbound Nostr event as consumed by the store ingestion paths: opaque id,
author key, numeric kind discriminator, creation timestamp, labeled tag tuples,
free-text body, and the optional source relay some implementations attach. -/
structure NEvent where
  id : String
  pubkey : String
  kind : Nat
  created_at : Int
  tags : List (List String)
  content : String
  relay : Option String
  deriving Repr, DecidableEq

/-- JS `x || dflt` on an optional string: `undefined`, `null` and the empty
string are falsy. -/
def jsOrStr (s : Option String) (dflt : String) : String :=
  match s with
  | some v => if v = "" then dflt else v
  | none => dflt

/-- JS truthiness of an optional string (`!x` is true for `undefined`/`null`
and the empty string). -/
def jsFalsyStrOpt (s : Option String) : Bool :=
  match s with
  | none => true
  | some v => v == ""

/-- `event.tags.find(t => t[0] === label)?.[1] || dflt`. -/
def findTagValue (tags : List (List String)) (label : String) (dflt : String) : String :=
  jsOrStr ((tags.find? (fun t => t.head? == some label)).bind (fun t => t.get? 1)) dflt

/-- `event.tags.filter(t => t[0] === label).map(t => t.slice(1))`. -/
def filterTagSlices (tags : List (List String)) (label : String) : List (List String) :=
  (tags.filter (fun t => t.head? == some label)).map (fun t => t.drop 1)

/-- `event.tags.filter(tag => tag[0] === 't').map(tag => tag[1])`: a missing
value slot is JS `undefined`, modelled as `none`. -/
def collectHashtags (tags : List (List String)) : List (Option String) :=
  (tags.filter (fun t => t.head? == some "t")).map (fun t => t.get? 1)

/-- `event.tags.find(t => t[0] === label)?.slice(1) || []` (a found empty slice
is a truthy array, so the default applies only when no tag is found). -/
def findTagSlice (tags : List (List String)) (label : String) : List String :=
  ((tags.find? (fun t => t.head? == some label)).map (fun t => t.drop 1)).getD []

/-- JS `parseInt` on a tag value string: the leading optionally-signed decimal
digits after whitespace; `none` models NaN. -/
def jsParseInt (s : String) : Option Int :=
  let t := s.data.dropWhile isJsSpace
  match t with
  | '-' :: rest =>
    let ds := rest.takeWhile Char.isDigit
    if ds.isEmpty then none else some (-(parseNatDigits ds : Int))
  | '+' :: rest =>
    let ds := rest.takeWhile Char.isDigit
    if ds.isEmpty then none else some ((parseNatDigits ds : Int))
  | rest =>
    let ds := rest.takeWhile Char.isDigit
    if ds.isEmpty then none else some ((parseNatDigits ds : Int))

/-- The author placeholder built by `addNoteToFeed`. -/
structure Author where
  pubkey : String
  name : String
  deriving Repr, DecidableEq

/-- A stored raw-note feed entry (`noteWithMetadata` in `addNoteToFeed`). -/
structure FeedNote where
  id : String
  pubkey : String
  author : Author
  content : String
  hashtags : List (Option String)
  created_at : Int
  relay : String
  kind : Nat
  eventType : Option String
  deriving Repr, DecidableEq

/-- A stored exercise template (kind 33401), built by `addExerciseTemplate`. -/
structure ExerciseTemplate where
  id : String
  kind : Nat
  pubkey : String
  created_at : Int
  d_tag : String
  title : String
  description : String
  format : List (List String)
  format_units : List (List String)
  equipment : List (List String)
  difficulty : String
  hashtags : List (Option String)
  raw_event : NEvent
  deriving Repr, DecidableEq

/-- A stored workout template (kind 33402), built by `addWorkoutTemplate`. -/
structure WorkoutTemplate where
  id : String
  kind : Nat
  pubkey : String
  created_at : Int
  d_tag : String
  title : String
  description : String
  exercises : List (List String)
  duration : String
  difficulty : String
  hashtags : List (Option String)
  raw_event : NEvent
  deriving Repr, DecidableEq

/-- One per-split entry of a workout record. -/
structure Split where
  number : Option String
  distance : Option String
  unit : Option String
  time : Option String
  heart_rate : Option String
  heart_rate_unit : Option String
  deriving Repr, DecidableEq

/-- The weather sub-record of a workout record. -/
structure WeatherInfo where
  temp : List String
  humidity : List String
  condition : String
  deriving Repr, DecidableEq

/-- A stored workout record (kind 1301), built by `addWorkoutRecord`.  The JS
`start`/`end` fields hold `null` or a parsed integer (NaN from a non-numeric
tag value is also modelled as `none`); `end` is renamed `endT` (Lean keyword). -/
structure WorkoutRecord where
  id : String
  kind : Nat
  pubkey : String
  created_at : Int
  d_tag : String
  title : String
  description : String
  type : String
  start : Option Int
  endT : Option Int
  duration : Option Int
  exercises : List (List String)
  heart_rate_avg : List String
  cadence_avg : List String
  weather : WeatherInfo
  splits : List Split
  completed : Bool
  hashtags : List (Option String)
  raw_event : NEvent
  deriving Repr, DecidableEq

/-- The mutable collections of the `NostrDVM` instance. -/
structure DVMState where
  runningNotesFeed : List FeedNote
  exerciseTemplates : List ExerciseTemplate
  workoutTemplates : List WorkoutTemplate
  workoutRecords : List WorkoutRecord
  deriving Repr, DecidableEq

/-- `this.maxFeedSize` (constructor default). -/
def maxFeedSize : Nat := 100

/-- `this.maxTemplatesSize` (constructor default). -/
def maxTemplatesSize : Nat := 100

/-- `this.maxRecordsSize` (constructor default). -/
def maxRecordsSize : Nat := 100

/-- The empty collections set up by the constructor. -/
def initialState : DVMState :=
  { runningNotesFeed := [], exerciseTemplates := [], workoutTemplates := [],
    workoutRecords := [] }

/-- The `noteWithMetadata` record built inside `addNoteToFeed`. -/
def buildFeedNote (event : NEvent) (eventType : Option String) : FeedNote :=
  { id := event.id
    pubkey := event.pubkey
    author := { pubkey := event.pubkey, name := event.pubkey.take 8 }
    content := event.content
    hashtags := collectHashtags event.tags
    created_at := event.created_at
    relay := jsOrStr event.relay "unknown"
    kind := event.kind
    eventType := eventType }

/-- `addNoteToFeed`: skip on a duplicate id, otherwise insert the annotated
note at the head and truncate the feed to `maxFeedSize`. -/
def addNoteToFeed (s : DVMState) (event : NEvent) (eventType : Option String) : DVMState :=
  if s.runningNotesFeed.any (fun note => note.id == event.id) then s
  else
    let note := buildFeedNote event eventType
    let feed := note :: s.runningNotesFeed
    let feed := if feed.length > maxFeedSize then feed.take maxFeedSize else feed
    { s with runningNotesFeed := feed }

/-- The template record built inside `addExerciseTemplate`. -/
def buildExerciseTemplate (event : NEvent) : ExerciseTemplate :=
  { id := event.id
    kind := event.kind
    pubkey := event.pubkey
    created_at := event.created_at
    d_tag := findTagValue event.tags "d" ""
    title := findTagValue event.tags "title" "Untitled Exercise"
    description := event.content
    format := filterTagSlices event.tags "format"
    format_units := filterTagSlices event.tags "format_units"
    equipment := filterTagSlices event.tags "equipment"
    difficulty := findTagValue event.tags "difficulty" ""
    hashtags := collectHashtags event.tags
    raw_event := event }

/-- `addExerciseTemplate`: skip on a duplicate id, otherwise insert at the head,
truncate to `maxTemplatesSize`, and also add the event to the raw-note feed
annotated as an exercise template. -/
def addExerciseTemplate (s : DVMState) (event : NEvent) : DVMState :=
  if s.exerciseTemplates.any (fun t => t.id == event.id) then s
  else
    let template := buildExerciseTemplate event
    let ts := template :: s.exerciseTemplates
    let ts := if ts.length > maxTemplatesSize then ts.take maxTemplatesSize else ts
    addNoteToFeed { s with exerciseTemplates := ts } event (some "Exercise Template")

/-- The template record built inside `addWorkoutTemplate`. -/
def buildWorkoutTemplate (event : NEvent) : WorkoutTemplate :=
  { id := event.id
    kind := event.kind
    pubkey := event.pubkey
    created_at := event.created_at
    d_tag := findTagValue event.tags "d" ""
    title := findTagValue event.tags "title" "Untitled Workout"
    description := event.content
    exercises := filterTagSlices event.tags "exercise"
    duration := findTagValue event.tags "duration" ""
    difficulty := findTagValue event.tags "difficulty" ""
    hashtags := collectHashtags event.tags
    raw_event := event }

/-- `addWorkoutTemplate`: skip on a duplicate id, otherwise insert at the head,
truncate to `maxTemplatesSize`, and also add the event to the raw-note feed
annotated as a workout template. -/
def addWorkoutTemplate (s : DVMState) (event : NEvent) : DVMState :=
  if s.workoutTemplates.any (fun t => t.id == event.id) then s
  else
    let template := buildWorkoutTemplate event
    let ts := template :: s.workoutTemplates
    let ts := if ts.length > maxTemplatesSize then ts.take maxTemplatesSize else ts
    addNoteToFeed { s with workoutTemplates := ts } event (some "Workout Template")

/-- One `split` tag mapped to a `Split` (with the source's `bpm` placeholder
tests on slots 5 and 6). -/
def buildSplit (t : List String) : Split :=
  { number := t.get? 1
    distance := t.get? 2
    unit := t.get? 3
    time := t.get? 4
    heart_rate := if t.get? 5 == some "bpm" then none else t.get? 5
    heart_rate_unit := if t.get? 6 == some "bpm" then t.get? 6 else none }

/-- The record built inside `addWorkoutRecord`. -/
def buildWorkoutRecord (event : NEvent) : WorkoutRecord :=
  let startStr := findTagValue event.tags "start" ""
  let endStr := findTagValue event.tags "end" ""
  { id := event.id
    kind := event.kind
    pubkey := event.pubkey
    created_at := event.created_at
    d_tag := findTagValue event.tags "d" ""
    title := findTagValue event.tags "title" "Untitled Workout"
    description := event.content
    type := findTagValue event.tags "type" ""
    start := if startStr ≠ "" then jsParseInt startStr else none
    endT := if endStr ≠ "" then jsParseInt endStr else none
    duration :=
      if startStr ≠ "" ∧ endStr ≠ "" then
        (jsParseInt endStr).bind (fun e => (jsParseInt startStr).map (fun st => e - st))
      else none
    exercises := filterTagSlices event.tags "exercise"
    heart_rate_avg := findTagSlice event.tags "heart_rate_avg"
    cadence_avg := findTagSlice event.tags "cadence_avg"
    weather :=
      { temp := findTagSlice event.tags "weather_temp"
        humidity := findTagSlice event.tags "weather_humidity"
        condition := findTagValue event.tags "weather_condition" "" }
    splits := ((event.tags.filter (fun t => t.head? == some "split")).map buildSplit)
    completed := (event.tags.find? (fun t => t.head? == some "completed")).bind
      (fun t => t.get? 1) == some "true"
    hashtags := collectHashtags event.tags
    raw_event := event }

/-- `addWorkoutRecord`: skip on a duplicate id, otherwise insert at the head,
truncate to `maxRecordsSize`, and also add the event to the raw-note feed
annotated as a workout record. -/
def addWorkoutRecord (s : DVMState) (event : NEvent) : DVMState :=
  if s.workoutRecords.any (fun r => r.id == event.id) then s
  else
    let record := buildWorkoutRecord event
    let rs := record :: s.workoutRecords
    let rs := if rs.length > maxRecordsSize then rs.take maxRecordsSize else rs
    addNoteToFeed { s with workoutRecords := rs } event (some "Workout Record")

/-- `processWorkoutEvent`: dispatch on the kind discriminator. -/
def processWorkoutEvent (s : DVMState) (event : NEvent) : DVMState :=
  match event.kind with
  | 33401 => addExerciseTemplate s event
  | 33402 => addWorkoutTemplate s event
  | 1301 => addWorkoutRecord s event
  | _ => s

/-- `Number.MAX_SAFE_INTEGER`. -/
def maxSafeInteger : Int := 2 ^ 53 - 1

/-- Parameters of `getRunningFeed`; `until` is renamed `untilT` (Lean keyword
clash avoidance). -/
structure FeedParams where
  limit : Nat
  since : Int
  untilT : Int
  include_workouts : Bool
  deriving Repr, DecidableEq

/-- The defaults destructured by `getRunningFeed`. -/
def defaultFeedParams : FeedParams :=
  { limit := 20, since := 0, untilT := maxSafeInteger, include_workouts := true }

/-- Result of `getRunningFeed`. -/
structure FeedResult where
  feed : List FeedNote
  total : Nat
  deriving Repr, DecidableEq

/-- `getRunningFeed`: inclusive `created_at` window filter, optional removal of
non-plain notes, limit truncation, and the store's unfiltered total. -/
def getRunningFeed (s : DVMState) (p : FeedParams) : FeedResult :=
  let filteredFeed := s.runningNotesFeed.filter
    (fun note => decide (p.since ≤ note.created_at) && decide (note.created_at ≤ p.untilT))
  let filteredFeed :=
    if p.include_workouts then filteredFeed
    else filteredFeed.filter (fun note => note.kind == 1 && jsFalsyStrOpt note.eventType)
  { feed := filteredFeed.take p.limit, total := s.runningNotesFeed.length }

/-! ### Activity aggregator (`src/tasks/activitySummary.js`) -/

/-- A caller-supplied activity: an optional timestamp (a valid ISO-8601
instant, modelled by its epoch-millisecond value, i.e. what
`new Date(a.timestamp).getTime()` yields) and a measurement set of the
extractor's shape. -/
structure Activity where
  timestamp : Option Int
  extractedData : MeasurementSet
  deriving Repr, DecidableEq

/-- The `short`/`medium`/`long` activity-type histogram (a JS object whose keys
appear on first increment; a zero count models an absent key). -/
structure ActivityTypes where
  short : Nat
  medium : Nat
  long : Nat
  deriving Repr, DecidableEq

/-- The result of `analyzePaceTrend`.  The `consistent` flag compares
`Math.sqrt(variance) / avgPace` against 0.1; the square root lives in `ℝ`, so
the flag is carried as a proposition. -/
structure PaceTrend where
  improving : Bool
  consistent : Prop

/-- The filter/sort prologue of `analyzePaceTrend`: activities carrying both a
pace (explicit pace first, else calculated) and a timestamp, mapped to
(timestamp-ms, pace-in-seconds) pairs and sorted by timestamp ascending. -/
def paceTimePoints (activities : List Activity) : List (Int × Int) :=
  (activities.filterMap (fun a =>
    match a.extractedData.pace.orElse (fun _ => a.extractedData.calculatedPace),
        a.timestamp with
    | some p, some ts => some (ts, p.minutes * 60 + p.seconds)
    | _, _ => none)).mergeSort (fun x y => decide (x.1 ≤ y.1))

/-- The regression body of `analyzePaceTrend`: ordinary least-squares slope of
pace against timestamp and the population coefficient of variation of the
paces.  Rational division by zero yields 0 where JS yields NaN; `NaN < 0` and
`0 < 0` are both false, so `improving` agrees. -/
def trendOf (pts : List (Int × Int)) : PaceTrend :=
  let n : ℚ := pts.length
  let timestamps : List ℚ := pts.map (fun x => (x.1 : ℚ))
  let paces : List ℚ := pts.map (fun x => (x.2 : ℚ))
  let avgTimestamp := timestamps.sum / n
  let avgPace := paces.sum / n
  let numerator := ((timestamps.zip paces).map
    (fun tp => (tp.1 - avgTimestamp) * (tp.2 - avgPace))).sum
  let denominator := (timestamps.map (fun t => (t - avgTimestamp) ^ 2)).sum
  let slope := numerator / denominator
  let variance := ((paces.map (fun p => (p - avgPace) ^ 2)).sum) / n
  { improving := decide (slope < 0)
    consistent := Real.sqrt ((variance : ℚ) : ℝ) / ((avgPace : ℚ) : ℝ) < 1 / 10 }

/-- `analyzePaceTrend`: both flags are false (the `consistent` proposition is
`False`) when fewer than three activities carry both pace and timestamp. -/
def analyzePaceTrend (activities : List Activity) : PaceTrend :=
  let activitiesWithPace := paceTimePoints activities
  if activitiesWithPace.length < 3 then { improving := false, consistent := False }
  else trendOf activitiesWithPace

/-- The running accumulators of the `activities.forEach` loop of
`activitySummaryTask`.  `bestPace = none` models the `Infinity` initial value,
and the `Option Nat` indices model the `null` initial values. -/
structure SummaryAcc where
  totalDistance : ℚ
  totalDuration : Nat
  totalPace : ℚ
  validPaceCount : Nat
  bestPace : Option (ℚ × Nat)
  longestDistance : ℚ
  longestDistanceActivity : Option Nat
  longestDuration : Nat
  longestDurationActivity : Option Nat
  types : ActivityTypes
  deriving Repr, DecidableEq

/-- The accumulator start values. -/
def initialAcc : SummaryAcc :=
  { totalDistance := 0, totalDuration := 0, totalPace := 0, validPaceCount := 0,
    bestPace := none, longestDistance := 0, longestDistanceActivity := none,
    longestDuration := 0, longestDurationActivity := none,
    types := { short := 0, medium := 0, long := 0 } }

/-- One iteration of the `activities.forEach((activity, index) => ...)` body:
distance normalized to km (factor 1.60934 for the mile words), duration
seconds, pace normalized to seconds/km (factor 0.621371 for `'mi'`/`'mile'`),
with the strict-comparison best trackers and the distance histogram. -/
def processActivity (acc : SummaryAcc) (ia : Nat × Activity) : SummaryAcc :=
  let index := ia.1
  let activity := ia.2
  let acc :=
    match activity.extractedData.distance with
    | some distance =>
      let distanceInKm :=
        if distance.unit = "mi" ∨ distance.unit = "mile" ∨ distance.unit = "miles" then
          distance.value * (160934 / 100000 : ℚ)
        else distance.value
      let a1 := { acc with totalDistance := acc.totalDistance + distanceInKm }
      let a2 :=
        if distanceInKm > a1.longestDistance then
          { a1 with longestDistance := distanceInKm, longestDistanceActivity := some index }
        else a1
      if distanceInKm ≥ 10 then
        { a2 with types := { a2.types with long := a2.types.long + 1 } }
      else if distanceInKm ≥ 5 then
        { a2 with types := { a2.types with medium := a2.types.medium + 1 } }
      else
        { a2 with types := { a2.types with short := a2.types.short + 1 } }
    | none => acc
  let acc :=
    match activity.extractedData.time with
    | some time =>
      let duration := time.totalSeconds
      let a1 := { acc with totalDuration := acc.totalDuration + duration }
      if duration > a1.longestDuration then
        { a1 with longestDuration := duration, longestDurationActivity := some index }
      else a1
    | none => acc
  match activity.extractedData.pace.orElse (fun _ => activity.extractedData.calculatedPace) with
  | some pace =>
    let paceInSecondsPerKm : ℚ := ((pace.minutes * 60 + pace.seconds : Int) : ℚ) *
      (if pace.unit = "mi" ∨ pace.unit = "mile" then (621371 / 1000000 : ℚ) else 1)
    let a1 := { acc with totalPace := acc.totalPace + paceInSecondsPerKm,
                         validPaceCount := acc.validPaceCount + 1 }
    match a1.bestPace with
    | none => { a1 with bestPace := some (paceInSecondsPerKm, index) }
    | some bp =>
      if paceInSecondsPerKm < bp.1 then { a1 with bestPace := some (paceInSecondsPerKm, index) }
      else a1
  | none => acc

/-- The summary object assembled by `activitySummaryTask` (display-string
fields such as `distanceFormatted` render the numeric fields below and are
omitted; `best` entries are kept as their `activityIndex`). -/
structure ActivitySummary where
  totalActivities : Nat
  periodStart : Option Int
  periodEnd : Option Int
  totalsDistance : ℚ
  totalsDuration : Nat
  averagesDistance : ℚ
  averagesDuration : ℚ
  averagesPace : ℚ
  bestPaceIdx : Option Nat
  bestDistanceIdx : Option Nat
  bestDurationIdx : Option Nat
  activityTypes : ActivityTypes
  trendImprovement : Bool
  trendConsistency : Prop

/-- The body of `activitySummaryTask` on a nonempty activity list: timestamps
sorted ascending for the period, the forEach accumulation, guarded averages,
and the trend classification computed only when at least three activities
exist and at least three carry a timestamp. -/
def buildSummary (activities : List Activity) : ActivitySummary :=
  let timestamps := (activities.filterMap (fun a => a.timestamp)).mergeSort
    (fun x y => decide (x ≤ y))
  let acc := activities.enum.foldl processActivity initialAcc
  let totalActivities := activities.length
  let averagesDistance : ℚ :=
    if totalActivities > 0 then acc.totalDistance / (totalActivities : ℚ) else 0
  let averagesDuration : ℚ :=
    if totalActivities > 0 then (acc.totalDuration : ℚ) / (totalActivities : ℚ) else 0
  let averagesPace : ℚ :=
    if acc.validPaceCount > 0 then acc.totalPace / (acc.validPaceCount : ℚ) else 0
  let trend :=
    if activities.length ≥ 3 ∧ timestamps.length ≥ 3 then analyzePaceTrend activities
    else { improving := false, consistent := False }
  { totalActivities
    periodStart := timestamps.head?
    periodEnd := timestamps.getLast?
    totalsDistance := acc.totalDistance
    totalsDuration := acc.totalDuration
    averagesDistance, averagesDuration, averagesPace
    bestPaceIdx := acc.bestPace.map (fun bp => bp.2)
    bestDistanceIdx := acc.longestDistanceActivity
    bestDurationIdx := acc.longestDurationActivity
    activityTypes := acc.types
    trendImprovement := trend.improving
    trendConsistency := trend.consistent }

/-- `activitySummaryTask` (src/tasks/activitySummary.js): the absent / empty
activity-list guard throws, everything else returns the summary.  `none`
models a missing `activities` parameter. -/
def activitySummaryTask (params : Option (List Activity)) : Except String ActivitySummary :=
  match params with
  | none => .error "No activities provided for summary"
  | some activities =>
    if activities.length = 0 then .error "No activities provided for summary"
    else .ok (buildSummary activities)

/-! ### Shared lemmas -/

theorem runningNotesTask_ok {content : String} {m : MeasurementSet}
    (h : runningNotesTask content = .ok m) : m = extractData content.data := by
  by_cases hc : content = "" <;> simp [runningNotesTask, hc] at h
  exact h.symm

theorem mkTimeData_decomposition (tms : List TimeMatch) :
    (mkTimeData tms).minutes < 60 ∧ (mkTimeData tms).seconds < 60 ∧
    (mkTimeData tms).hours * 3600 + (mkTimeData tms).minutes * 60 + (mkTimeData tms).seconds
      = (mkTimeData tms).totalSeconds ∧
    (mkTimeData tms).formatted =
      padTwo (mkTimeData tms).hours ++ ":" ++ padTwo (mkTimeData tms).minutes ++ ":" ++
        padTwo (mkTimeData tms).seconds := by
  refine ⟨?_, ?_, ?_, rfl⟩ <;> simp only [mkTimeData] <;> omega

/-! ### Claims about the field extractor's units (C1) -/

/-- Claim C1 (refuting evaluation): the spec asks for the unit tokens of the
distance and pace fields to be the normalized `'km'`/`'mi'` for every
recognized kilometre/mile word.  On the input
`"Ran 5 kilometers at 5:30 per kilometer"` the extractor instead records
`distance.unit = "kilometers"` (the captured word is only lowercased, never
normalized) and `pace.unit = "mi"` for the kilometre word `kilometer` (the
normalization tests only the literal two-letter prefix `km`, which the words
`kilometer`/`kilometers` do not have). -/
theorem c1_unit_normalization_failure :
    (extractData "Ran 5 kilometers at 5:30 per kilometer".data).distance.map Distance.unit
      = some "kilometers" ∧
    (extractData "Ran 5 kilometers at 5:30 per kilometer".data).pace.map Pace.unit
      = some "mi" :=
  ⟨by decide, by decide⟩

/-! ### Claim C10: sexagesimal decomposition of the duration field -/

/-- Claim C10: whenever the extractor's output contains a duration field, its
components satisfy `minutes < 60`, `seconds < 60`,
`hours*3600 + minutes*60 + seconds = totalSeconds` (all components are
nonnegative naturals), and the formatted string is the three components
zero-padded to two digits and joined by `':'`. -/
theorem c10_duration_decomposition (content : String) (m : MeasurementSet) (t : TimeData)
    (h1 : runningNotesTask content = .ok m) (h2 : m.time = some t) :
    t.minutes < 60 ∧ t.seconds < 60 ∧
    t.hours * 3600 + t.minutes * 60 + t.seconds = t.totalSeconds ∧
    t.formatted = padTwo t.hours ++ ":" ++ padTwo t.minutes ++ ":" ++ padTwo t.seconds := by
  rw [runningNotesTask_ok h1] at h2
  simp only [extractData] at h2
  split at h2
  · exact absurd h2 (by simp)
  · cases h2
    exact mkTimeData_decomposition _

/-- Witness for C10 at the concrete input `"Ran 5km in 25:30"`. -/
theorem c10_duration_decomposition_witness :
    runningNotesTask "Ran 5km in 25:30" = .ok (extractData "Ran 5km in 25:30".data) ∧
    (extractData "Ran 5km in 25:30".data).time =
      some (mkTimeData (timeScan "Ran 5km in 25:30".data.length "Ran 5km in 25:30".data)) ∧
    ((mkTimeData (timeScan "Ran 5km in 25:30".data.length "Ran 5km in 25:30".data)).minutes < 60 ∧
     (mkTimeData (timeScan "Ran 5km in 25:30".data.length "Ran 5km in 25:30".data)).seconds < 60 ∧
     (mkTimeData (timeScan "Ran 5km in 25:30".data.length "Ran 5km in 25:30".data)).hours * 3600 +
       (mkTimeData (timeScan "Ran 5km in 25:30".data.length "Ran 5km in 25:30".data)).minutes * 60 +
       (mkTimeData (timeScan "Ran 5km in 25:30".data.length "Ran 5km in 25:30".data)).seconds =
       (mkTimeData (timeScan "Ran 5km in 25:30".data.length "Ran 5km in 25:30".data)).totalSeconds ∧
     (mkTimeData (timeScan "Ran 5km in 25:30".data.length "Ran 5km in 25:30".data)).formatted =
       padTwo (mkTimeData (timeScan "Ran 5km in 25:30".data.length "Ran 5km in 25:30".data)).hours
         ++ ":" ++
       padTwo (mkTimeData (timeScan "Ran 5km in 25:30".data.length "Ran 5km in 25:30".data)).minutes
         ++ ":" ++
       padTwo (mkTimeData (timeScan "Ran 5km in 25:30".data.length "Ran 5km in 25:30".data)).seconds) :=
  ⟨rfl, by decide, c10_duration_decomposition "Ran 5km in 25:30" _ _ rfl (by decide)⟩

/-! ### Claim C6: the aggregator's empty-list guard -/

/-- Claim C6: `activitySummaryTask` fails with the empty-activity-list error
exactly when the activity list is absent or empty, and returns a summary on
every nonempty list (the summary computation itself is total: no other
failure path exists). -/
theorem c6_summarize_empty_guard (params : Option (List Activity)) :
    ((∃ s, activitySummaryTask params = .ok s) ↔ ∃ l, params = some l ∧ l ≠ []) ∧
    activitySummaryTask none = .error "No activities provided for summary" ∧
    activitySummaryTask (some []) = .error "No activities provided for summary" := by
  refine ⟨?_, rfl, rfl⟩
  cases params with
  | none => simp [activitySummaryTask]
  | some l =>
    by_cases hl : l = []
    · subst hl; simp [activitySummaryTask]
    · simp [activitySummaryTask, List.length_eq_zero, hl]

/-! ### Claim C7: inclusive created_at bounds in the feed query -/

theorem window_eq_point (T c : Int) :
    (decide (T ≤ c) && decide (c ≤ T)) = (c == T) := by
  by_cases h : c = T
  · subst h; simp
  · have h1 : ¬(T ≤ c) ∨ ¬(c ≤ T) := by omega
    rcases h1 with h1 | h1 <;> simp [h1, beq_eq_false_iff_ne.mpr h]

/-- Claim C7: `getRunningFeed` filters `created_at` with inclusive bounds on
both ends: with `since = until = T` the returned feed is exactly the stored
items whose `created_at` equals `T`, truncated to the limit; and an item whose
`created_at` equals `since` or equals `until` of a (nonempty) window is never
excluded by the time filter. -/
theorem c7_feed_time_filter_inclusive (s : DVMState) (T : Int) (lim : Nat)
    (since untilT : Int) (n : FeedNote)
    (hle : since ≤ untilT) (hmem : n ∈ s.runningNotesFeed)
    (hat : n.created_at = since ∨ n.created_at = untilT) :
    (getRunningFeed s { limit := lim, since := T, untilT := T, include_workouts := true }).feed
      = (s.runningNotesFeed.filter (fun note => note.created_at == T)).take lim ∧
    n ∈ (getRunningFeed s
        { limit := s.runningNotesFeed.length, since := since, untilT := untilT, include_workouts := true }).feed := by
  constructor
  · simp only [getRunningFeed, if_pos]
    rw [List.filter_congr (fun x _ => window_eq_point T x.created_at)]
  · simp only [getRunningFeed, if_pos]
    rw [List.take_of_length_le (List.length_filter_le _ _)]
    refine List.mem_filter.mpr ⟨hmem, ?_⟩
    rcases hat with hat | hat <;> rw [hat] <;> simp <;> omega

/-- Concrete feed note used by the C7 witness. -/
def feedNoteW : FeedNote :=
  { id := "w", pubkey := "p", author := { pubkey := "p", name := "p" }, content := "",
    hashtags := [], created_at := 7, relay := "unknown", kind := 1, eventType := none }

/-- Concrete store state used by the C7 witness. -/
def stateW : DVMState :=
  { runningNotesFeed := [feedNoteW], exerciseTemplates := [], workoutTemplates := [],
    workoutRecords := [] }

/-- Witness for C7 at a concrete one-note store with `T = since = until = 7`. -/
theorem c7_feed_time_filter_inclusive_witness :
    (7 : Int) ≤ 7 ∧ feedNoteW ∈ stateW.runningNotesFeed ∧
    (feedNoteW.created_at = 7 ∨ feedNoteW.created_at = 7) ∧
    ((getRunningFeed stateW { limit := 2, since := 7, untilT := 7, include_workouts := true }).feed
       = (stateW.runningNotesFeed.filter (fun note => note.created_at == 7)).take 2 ∧
     feedNoteW ∈ (getRunningFeed stateW
        { limit := stateW.runningNotesFeed.length, since := 7, untilT := 7, include_workouts := true }).feed) :=
  ⟨by decide, by decide, by decide,
    c7_feed_time_filter_inclusive stateW 7 2 7 7 feedNoteW (by decide) (by decide) (by decide)⟩

/-! ### Claim C3: idempotent ingestion under duplicate ids -/

theorem addNoteToFeed_skip {s : DVMState} {e : NEvent} {ty : Option String}
    (h : ∃ note ∈ s.runningNotesFeed, note.id = e.id) :
    addNoteToFeed s e ty = s := by
  obtain ⟨note, hm, hi⟩ := h
  simp only [addNoteToFeed]
  rw [if_pos (List.any_eq_true.mpr ⟨note, hm, by simp [hi]⟩)]

theorem addExerciseTemplate_skip {s : DVMState} {e : NEvent}
    (h : ∃ t ∈ s.exerciseTemplates, t.id = e.id) :
    addExerciseTemplate s e = s := by
  obtain ⟨t, hm, hi⟩ := h
  simp only [addExerciseTemplate]
  rw [if_pos (List.any_eq_true.mpr ⟨t, hm, by simp [hi]⟩)]

theorem addWorkoutTemplate_skip {s : DVMState} {e : NEvent}
    (h : ∃ t ∈ s.workoutTemplates, t.id = e.id) :
    addWorkoutTemplate s e = s := by
  obtain ⟨t, hm, hi⟩ := h
  simp only [addWorkoutTemplate]
  rw [if_pos (List.any_eq_true.mpr ⟨t, hm, by simp [hi]⟩)]

theorem addWorkoutRecord_skip {s : DVMState} {e : NEvent}
    (h : ∃ r ∈ s.workoutRecords, r.id = e.id) :
    addWorkoutRecord s e = s := by
  obtain ⟨r, hm, hi⟩ := h
  simp only [addWorkoutRecord]
  rw [if_pos (List.any_eq_true.mpr ⟨r, hm, by simp [hi]⟩)]

theorem addNoteToFeed_initial (e : NEvent) (ty : Option String) :
    addNoteToFeed initialState e ty =
      { initialState with runningNotesFeed := [buildFeedNote e ty] } := rfl

theorem addExerciseTemplate_initial (e : NEvent) :
    addExerciseTemplate initialState e =
      { initialState with
          exerciseTemplates := [buildExerciseTemplate e],
          runningNotesFeed := [buildFeedNote e (some "Exercise Template")] } := rfl

theorem addWorkoutTemplate_initial (e : NEvent) :
    addWorkoutTemplate initialState e =
      { initialState with
          workoutTemplates := [buildWorkoutTemplate e],
          runningNotesFeed := [buildFeedNote e (some "Workout Template")] } := rfl

theorem addWorkoutRecord_initial (e : NEvent) :
    addWorkoutRecord initialState e =
      { initialState with
          workoutRecords := [buildWorkoutRecord e],
          runningNotesFeed := [buildFeedNote e (some "Workout Record")] } := rfl

/-- Claim C3: for each store, ingesting a message whose id is already present
is a silent no-op that leaves the whole state unchanged (for the workout
stores this also leaves the feed untouched, since the early return precedes
the feed insertion); ingesting the same id twice into the empty store yields a
store holding exactly the one record built from the first message — the
record is never updated by the duplicate. -/
theorem c3_ingest_idempotent (s : DVMState) (e e' : NEvent) (ty ty' : Option String)
    (hid : e'.id = e.id) :
    ((∃ note ∈ s.runningNotesFeed, note.id = e.id) → addNoteToFeed s e ty = s) ∧
    ((∃ t ∈ s.exerciseTemplates, t.id = e.id) → addExerciseTemplate s e = s) ∧
    ((∃ t ∈ s.workoutTemplates, t.id = e.id) → addWorkoutTemplate s e = s) ∧
    ((∃ r ∈ s.workoutRecords, r.id = e.id) → addWorkoutRecord s e = s) ∧
    ((addNoteToFeed initialState e ty).runningNotesFeed = [buildFeedNote e ty] ∧
      addNoteToFeed (addNoteToFeed initialState e ty) e' ty' = addNoteToFeed initialState e ty) ∧
    ((addExerciseTemplate initialState e).exerciseTemplates = [buildExerciseTemplate e] ∧
      addExerciseTemplate (addExerciseTemplate initialState e) e' =
        addExerciseTemplate initialState e) ∧
    ((addWorkoutTemplate initialState e).workoutTemplates = [buildWorkoutTemplate e] ∧
      addWorkoutTemplate (addWorkoutTemplate initialState e) e' =
        addWorkoutTemplate initialState e) ∧
    ((addWorkoutRecord initialState e).workoutRecords = [buildWorkoutRecord e] ∧
      addWorkoutRecord (addWorkoutRecord initialState e) e' = addWorkoutRecord initialState e) := by
  refine ⟨addNoteToFeed_skip, addExerciseTemplate_skip, addWorkoutTemplate_skip,
    addWorkoutRecord_skip, ⟨?_, ?_⟩, ⟨?_, ?_⟩, ⟨?_, ?_⟩, ⟨?_, ?_⟩⟩
  · rw [addNoteToFeed_initial]
  · exact addNoteToFeed_skip ⟨buildFeedNote e ty, by rw [addNoteToFeed_initial]; simp, hid.symm⟩
  · rw [addExerciseTemplate_initial]
  · exact addExerciseTemplate_skip
      ⟨buildExerciseTemplate e, by rw [addExerciseTemplate_initial]; simp, hid.symm⟩
  · rw [addWorkoutTemplate_initial]
  · exact addWorkoutTemplate_skip
      ⟨buildWorkoutTemplate e, by rw [addWorkoutTemplate_initial]; simp, hid.symm⟩
  · rw [addWorkoutRecord_initial]
  · exact addWorkoutRecord_skip
      ⟨buildWorkoutRecord e, by rw [addWorkoutRecord_initial]; simp, hid.symm⟩

/-- Concrete event used by the C3 witness. -/
def eventC3 : NEvent :=
  { id := "x", pubkey := "pk", kind := 1, created_at := 3, tags := [["t", "runstr"]],
    content := "note", relay := none }

/-- Witness for C3: the theorem applied at a concrete state and event pair
sharing one id. -/
theorem c3_ingest_idempotent_witness :
    eventC3.id = eventC3.id ∧
    (((∃ note ∈ initialState.runningNotesFeed, note.id = eventC3.id) →
        addNoteToFeed initialState eventC3 none = initialState) ∧
     ((∃ t ∈ initialState.exerciseTemplates, t.id = eventC3.id) →
        addExerciseTemplate initialState eventC3 = initialState) ∧
     ((∃ t ∈ initialState.workoutTemplates, t.id = eventC3.id) →
        addWorkoutTemplate initialState eventC3 = initialState) ∧
     ((∃ r ∈ initialState.workoutRecords, r.id = eventC3.id) →
        addWorkoutRecord initialState eventC3 = initialState) ∧
     ((addNoteToFeed initialState eventC3 none).runningNotesFeed =
         [buildFeedNote eventC3 none] ∧
       addNoteToFeed (addNoteToFeed initialState eventC3 none) eventC3 none =
         addNoteToFeed initialState eventC3 none) ∧
     ((addExerciseTemplate initialState eventC3).exerciseTemplates =
         [buildExerciseTemplate eventC3] ∧
       addExerciseTemplate (addExerciseTemplate initialState eventC3) eventC3 =
         addExerciseTemplate initialState eventC3) ∧
     ((addWorkoutTemplate initialState eventC3).workoutTemplates =
         [buildWorkoutTemplate eventC3] ∧
       addWorkoutTemplate (addWorkoutTemplate initialState eventC3) eventC3 =
         addWorkoutTemplate initialState eventC3) ∧
     ((addWorkoutRecord initialState eventC3).workoutRecords =
         [buildWorkoutRecord eventC3] ∧
       addWorkoutRecord (addWorkoutRecord initialState eventC3) eventC3 =
         addWorkoutRecord initialState eventC3)) :=
  ⟨rfl, c3_ingest_idempotent initialState eventC3 eventC3 none none rfl⟩

/-! ### Claim C9: the feed-store frame effect of workout ingestion -/

/-- Concrete feed note used by the C9 counterexample. -/
def feedNoteC9 : FeedNote :=
  { id := "a", pubkey := "p", author := { pubkey := "p", name := "p" }, content := "",
    hashtags := [], created_at := 0, relay := "unknown", kind := 1, eventType := none }

/-- Concrete store state used by the C9 counterexample: the feed already holds
id `"a"` while the workout-record store does not. -/
def stateC9 : DVMState :=
  { runningNotesFeed := [feedNoteC9], exerciseTemplates := [], workoutTemplates := [],
    workoutRecords := [] }

/-- Concrete workout-record event (kind 1301) with the same id `"a"`. -/
def eventC9 : NEvent :=
  { id := "a", pubkey := "q", kind := 1301, created_at := 5, tags := [], content := "w",
    relay := none }

/-- Claim C9 counterexample: an event whose id is new to its kind-specific
store (the workout-record store) but already present in the raw-note feed is
ingested into the record store, yet the feed is left completely unchanged —
the feed applies its own id dedup and skips.  So a workout ingestion with a
store-fresh id does not always mutate two stores. -/
theorem c9_counterexample :
    (∀ r ∈ stateC9.workoutRecords, r.id ≠ eventC9.id) ∧
    (addWorkoutRecord stateC9 eventC9).workoutRecords.map WorkoutRecord.id = ["a"] ∧
    (addWorkoutRecord stateC9 eventC9).runningNotesFeed = stateC9.runningNotesFeed :=
  ⟨by decide, by decide, by decide⟩

theorem addNoteToFeed_fresh {s : DVMState} {e : NEvent} {ty : Option String}
    (h : ∀ note ∈ s.runningNotesFeed, note.id ≠ e.id) :
    (addNoteToFeed s e ty).runningNotesFeed.head? = some (buildFeedNote e ty) ∧
    (addNoteToFeed s e ty).runningNotesFeed ≠ s.runningNotesFeed := by
  have hany : s.runningNotesFeed.any (fun note => note.id == e.id) = false := by
    rw [List.any_eq_false]
    intro note hm
    simp [h note hm]
  have hhead : (addNoteToFeed s e ty).runningNotesFeed.head? = some (buildFeedNote e ty) := by
    simp only [addNoteToFeed, hany, Bool.false_eq_true, if_false]
    split
    · rcases s.runningNotesFeed with _ | ⟨x, xs⟩ <;> rfl
    · rfl
  refine ⟨hhead, fun heq => ?_⟩
  have : buildFeedNote e ty ∈ s.runningNotesFeed :=
    List.mem_of_mem_head? (by rw [← heq, hhead]; exact Option.mem_def.mpr rfl)
  exact h _ this rfl

/-- Claim C9 (amended): ingesting a workout event whose id is new to its
kind-specific store *and new to the raw-note feed* also inserts the
corresponding annotated note at the head of the feed, so the feed is not left
unchanged; when the feed already holds the id, the feed's own dedup skips the
note (see the counterexample). -/
theorem c9_workout_feed_insertion (s : DVMState) (e : NEvent)
    (hfeed : ∀ note ∈ s.runningNotesFeed, note.id ≠ e.id) :
    ((∀ t ∈ s.exerciseTemplates, t.id ≠ e.id) →
      (addExerciseTemplate s e).runningNotesFeed.head? =
          some (buildFeedNote e (some "Exercise Template")) ∧
      (addExerciseTemplate s e).runningNotesFeed ≠ s.runningNotesFeed) ∧
    ((∀ t ∈ s.workoutTemplates, t.id ≠ e.id) →
      (addWorkoutTemplate s e).runningNotesFeed.head? =
          some (buildFeedNote e (some "Workout Template")) ∧
      (addWorkoutTemplate s e).runningNotesFeed ≠ s.runningNotesFeed) ∧
    ((∀ r ∈ s.workoutRecords, r.id ≠ e.id) →
      (addWorkoutRecord s e).runningNotesFeed.head? =
          some (buildFeedNote e (some "Workout Record")) ∧
      (addWorkoutRecord s e).runningNotesFeed ≠ s.runningNotesFeed) := by
  refine ⟨fun hk => ?_, fun hk => ?_, fun hk => ?_⟩
  · have hany : s.exerciseTemplates.any (fun t => t.id == e.id) = false := by
      rw [List.any_eq_false]; intro t hm; simp [hk t hm]
    simp only [addExerciseTemplate, hany, Bool.false_eq_true, if_false]
    exact addNoteToFeed_fresh hfeed
  · have hany : s.workoutTemplates.any (fun t => t.id == e.id) = false := by
      rw [List.any_eq_false]; intro t hm; simp [hk t hm]
    simp only [addWorkoutTemplate, hany, Bool.false_eq_true, if_false]
    exact addNoteToFeed_fresh hfeed
  · have hany : s.workoutRecords.any (fun r => r.id == e.id) = false := by
      rw [List.any_eq_false]; intro r hm; simp [hk r hm]
    simp only [addWorkoutRecord, hany, Bool.false_eq_true, if_false]
    exact addNoteToFeed_fresh hfeed

/-- Witness for the amended C9 at the empty store and a concrete 1301 event. -/
theorem c9_workout_feed_insertion_witness :
    (∀ note ∈ initialState.runningNotesFeed, note.id ≠ eventC9.id) ∧
    (((∀ t ∈ initialState.exerciseTemplates, t.id ≠ eventC9.id) →
      (addExerciseTemplate initialState eventC9).runningNotesFeed.head? =
          some (buildFeedNote eventC9 (some "Exercise Template")) ∧
      (addExerciseTemplate initialState eventC9).runningNotesFeed ≠
          initialState.runningNotesFeed) ∧
     ((∀ t ∈ initialState.workoutTemplates, t.id ≠ eventC9.id) →
      (addWorkoutTemplate initialState eventC9).runningNotesFeed.head? =
          some (buildFeedNote eventC9 (some "Workout Template")) ∧
      (addWorkoutTemplate initialState eventC9).runningNotesFeed ≠
          initialState.runningNotesFeed) ∧
     ((∀ r ∈ initialState.workoutRecords, r.id ≠ eventC9.id) →
      (addWorkoutRecord initialState eventC9).runningNotesFeed.head? =
          some (buildFeedNote eventC9 (some "Workout Record")) ∧
      (addWorkoutRecord initialState eventC9).runningNotesFeed ≠
          initialState.runningNotesFeed)) :=
  ⟨by decide, c9_workout_feed_insertion initialState eventC9 (by decide)⟩

/-! ### Claim C2: store capacity invariant -/

/-- Head-insert with id dedup and tail truncation: the shared shape of the
three store ingestion paths, used to state the capacity lemma once. -/
def dedupInsert {ρ : Type} (maxSize : Nat) (getId : ρ → String) (store : List ρ) (r : ρ) :
    List ρ :=
  if store.any (fun x => getId x == getId r) then store
  else if (r :: store).length > maxSize then (r :: store).take maxSize else r :: store

@[simp] theorem buildFeedNote_id (e : NEvent) (ty : Option String) :
    (buildFeedNote e ty).id = e.id := rfl

@[simp] theorem buildExerciseTemplate_id (e : NEvent) :
    (buildExerciseTemplate e).id = e.id := rfl

@[simp] theorem buildWorkoutTemplate_id (e : NEvent) :
    (buildWorkoutTemplate e).id = e.id := rfl

@[simp] theorem buildWorkoutRecord_id (e : NEvent) :
    (buildWorkoutRecord e).id = e.id := rfl

@[simp] theorem initialState_runningNotesFeed : initialState.runningNotesFeed = [] := rfl

@[simp] theorem initialState_exerciseTemplates : initialState.exerciseTemplates = [] := rfl

@[simp] theorem initialState_workoutTemplates : initialState.workoutTemplates = [] := rfl

@[simp] theorem initialState_workoutRecords : initialState.workoutRecords = [] := rfl

theorem addNoteToFeed_keeps_exerciseTemplates (s : DVMState) (e : NEvent) (ty : Option String) :
    (addNoteToFeed s e ty).exerciseTemplates = s.exerciseTemplates := by
  simp only [addNoteToFeed]; split <;> rfl

theorem addNoteToFeed_keeps_workoutTemplates (s : DVMState) (e : NEvent) (ty : Option String) :
    (addNoteToFeed s e ty).workoutTemplates = s.workoutTemplates := by
  simp only [addNoteToFeed]; split <;> rfl

theorem addNoteToFeed_keeps_workoutRecords (s : DVMState) (e : NEvent) (ty : Option String) :
    (addNoteToFeed s e ty).workoutRecords = s.workoutRecords := by
  simp only [addNoteToFeed]; split <;> rfl

theorem addNoteToFeed_feed_eq (s : DVMState) (e : NEvent) (ty : Option String) :
    (addNoteToFeed s e ty).runningNotesFeed =
      dedupInsert maxFeedSize FeedNote.id s.runningNotesFeed (buildFeedNote e ty) := by
  unfold addNoteToFeed dedupInsert
  simp only [buildFeedNote_id]
  by_cases h : s.runningNotesFeed.any (fun note => note.id == e.id)
  · rw [if_pos h, if_pos h]
  · rw [if_neg h, if_neg h]

theorem addExerciseTemplate_templates_eq (s : DVMState) (e : NEvent) :
    (addExerciseTemplate s e).exerciseTemplates =
      dedupInsert maxTemplatesSize ExerciseTemplate.id s.exerciseTemplates
        (buildExerciseTemplate e) := by
  unfold addExerciseTemplate dedupInsert
  simp only [buildExerciseTemplate_id]
  by_cases h : s.exerciseTemplates.any (fun t => t.id == e.id)
  · rw [if_pos h, if_pos h]
  · rw [if_neg h, if_neg h, addNoteToFeed_keeps_exerciseTemplates]

theorem addWorkoutTemplate_templates_eq (s : DVMState) (e : NEvent) :
    (addWorkoutTemplate s e).workoutTemplates =
      dedupInsert maxTemplatesSize WorkoutTemplate.id s.workoutTemplates
        (buildWorkoutTemplate e) := by
  unfold addWorkoutTemplate dedupInsert
  simp only [buildWorkoutTemplate_id]
  by_cases h : s.workoutTemplates.any (fun t => t.id == e.id)
  · rw [if_pos h, if_pos h]
  · rw [if_neg h, if_neg h, addNoteToFeed_keeps_workoutTemplates]

theorem addWorkoutRecord_records_eq (s : DVMState) (e : NEvent) :
    (addWorkoutRecord s e).workoutRecords =
      dedupInsert maxRecordsSize WorkoutRecord.id s.workoutRecords
        (buildWorkoutRecord e) := by
  unfold addWorkoutRecord dedupInsert
  simp only [buildWorkoutRecord_id]
  by_cases h : s.workoutRecords.any (fun r => r.id == e.id)
  · rw [if_pos h, if_pos h]
  · rw [if_neg h, if_neg h, addNoteToFeed_keeps_workoutRecords]

theorem take_append_take {α : Type} (m : Nat) (X Y : List α) :
    (X ++ Y.take m).take m = (X ++ Y).take m := by
  rw [List.take_append_eq_append_take, List.take_append_eq_append_take, List.take_take]
  congr 1
  exact congrArg (fun n => List.take n Y) (Nat.min_eq_left (Nat.sub_le m _))

theorem dedupInsert_fresh {ρ : Type} (maxSize : Nat) (getId : ρ → String)
    (store : List ρ) (r : ρ) (h : ∀ x ∈ store, getId x ≠ getId r) :
    dedupInsert maxSize getId store r = (r :: store).take maxSize := by
  have hany : (store.any fun x => getId x == getId r) = false :=
    List.any_eq_false.mpr (fun x hx => by simp [h x hx])
  unfold dedupInsert
  rw [if_neg (by simp [hany])]
  split
  · rfl
  · exact (List.take_of_length_le (by omega)).symm

theorem foldl_dedupInsert {ρ α : Type} (maxSize : Nat) (getId : ρ → String) (f : α → ρ)
    (events : List α) :
    ∀ acc : List ρ,
      (events.map (fun a => getId (f a))).Nodup →
      (∀ x ∈ acc, ∀ a ∈ events, getId x ≠ getId (f a)) →
      acc.length ≤ maxSize →
      events.foldl (fun st a => dedupInsert maxSize getId st (f a)) acc =
        ((events.map f).reverse ++ acc).take maxSize := by
  induction events with
  | nil =>
    intro acc _ _ hlen
    simp [List.take_of_length_le hlen]
  | cons a as ih =>
    intro acc hnodup hfresh hlen
    rw [List.map_cons, List.nodup_cons] at hnodup
    rw [List.foldl_cons,
      dedupInsert_fresh _ _ _ _ (fun x hx => hfresh x hx a (List.mem_cons_self a as)),
      ih ((f a :: acc).take maxSize) hnodup.2 ?fresh (by rw [List.length_take]; omega)]
    case fresh =>
      intro x hx b hb
      rcases List.mem_cons.mp (List.take_subset _ _ hx) with hx | hx
      · subst hx
        intro hEq
        exact hnodup.1 (hEq ▸ List.mem_map_of_mem (fun c => getId (f c)) hb)
      · exact hfresh x hx b (List.mem_cons_of_mem a hb)
    rw [take_append_take, List.map_cons, List.reverse_cons, List.append_assoc]
    rfl

theorem foldl_dedupInsert_ids {ρ α : Type} (maxSize : Nat) (getId : ρ → String) (f : α → ρ)
    (events : List α) (hnodup : (events.map (fun a => getId (f a))).Nodup) :
    (events.foldl (fun st a => dedupInsert maxSize getId st (f a)) []).map getId =
      ((events.map (fun a => getId (f a))).reverse).take maxSize := by
  rw [foldl_dedupInsert maxSize getId f events [] hnodup (by simp) (by simp),
    List.append_nil, List.map_take, List.map_reverse, List.map_map]
  rfl

theorem foldl_addNoteToFeed_feed (events : List NEvent) (s : DVMState) :
    (events.foldl (fun st e => addNoteToFeed st e none) s).runningNotesFeed =
      events.foldl (fun st e => dedupInsert maxFeedSize FeedNote.id st (buildFeedNote e none))
        s.runningNotesFeed := by
  induction events generalizing s with
  | nil => rfl
  | cons e es ih => rw [List.foldl_cons, List.foldl_cons, ih, addNoteToFeed_feed_eq]

theorem foldl_addExerciseTemplate_templates (events : List NEvent) (s : DVMState) :
    (events.foldl addExerciseTemplate s).exerciseTemplates =
      events.foldl
        (fun st e => dedupInsert maxTemplatesSize ExerciseTemplate.id st (buildExerciseTemplate e))
        s.exerciseTemplates := by
  induction events generalizing s with
  | nil => rfl
  | cons e es ih => rw [List.foldl_cons, List.foldl_cons, ih, addExerciseTemplate_templates_eq]

theorem foldl_addWorkoutTemplate_templates (events : List NEvent) (s : DVMState) :
    (events.foldl addWorkoutTemplate s).workoutTemplates =
      events.foldl
        (fun st e => dedupInsert maxTemplatesSize WorkoutTemplate.id st (buildWorkoutTemplate e))
        s.workoutTemplates := by
  induction events generalizing s with
  | nil => rfl
  | cons e es ih => rw [List.foldl_cons, List.foldl_cons, ih, addWorkoutTemplate_templates_eq]

theorem foldl_addWorkoutRecord_records (events : List NEvent) (s : DVMState) :
    (events.foldl addWorkoutRecord s).workoutRecords =
      events.foldl
        (fun st e => dedupInsert maxRecordsSize WorkoutRecord.id st (buildWorkoutRecord e))
        s.workoutRecords := by
  induction events generalizing s with
  | nil => rfl
  | cons e es ih => rw [List.foldl_cons, List.foldl_cons, ih, addWorkoutRecord_records_eq]

/-- Claim C2: after ingesting `maxSize + k` (k ≥ 1, maxSize = 100) events with
pairwise distinct ids into each of the bounded stores starting empty, the
store's content is exactly the 100 most recently inserted ids in newest-first
order and its size is exactly 100; moreover an ingestion of a fresh id into a
full store always succeeds, inserting at the head and evicting exactly the
oldest (last) entry. -/
theorem c2_store_capacity (events : List NEvent) (k : Nat)
    (hnodup : (events.map NEvent.id).Nodup)
    (hlen : events.length = 100 + k) (hk : 1 ≤ k) :
    ((events.foldl (fun st e => addNoteToFeed st e none) initialState).runningNotesFeed.map
        FeedNote.id = ((events.map NEvent.id).reverse).take maxFeedSize ∧
      (events.foldl (fun st e => addNoteToFeed st e none) initialState).runningNotesFeed.length
        = maxFeedSize) ∧
    ((events.foldl addExerciseTemplate initialState).exerciseTemplates.map
        ExerciseTemplate.id = ((events.map NEvent.id).reverse).take maxTemplatesSize ∧
      (events.foldl addExerciseTemplate initialState).exerciseTemplates.length
        = maxTemplatesSize) ∧
    ((events.foldl addWorkoutTemplate initialState).workoutTemplates.map
        WorkoutTemplate.id = ((events.map NEvent.id).reverse).take maxTemplatesSize ∧
      (events.foldl addWorkoutTemplate initialState).workoutTemplates.length
        = maxTemplatesSize) ∧
    ((events.foldl addWorkoutRecord initialState).workoutRecords.map
        WorkoutRecord.id = ((events.map NEvent.id).reverse).take maxRecordsSize ∧
      (events.foldl addWorkoutRecord initialState).workoutRecords.length
        = maxRecordsSize) ∧
    (∀ (s : DVMState) (e : NEvent) (ty : Option String),
      s.runningNotesFeed.length = maxFeedSize →
      (∀ note ∈ s.runningNotesFeed, note.id ≠ e.id) →
      (addNoteToFeed s e ty).runningNotesFeed =
        buildFeedNote e ty :: s.runningNotesFeed.dropLast) ∧
    (∀ (s : DVMState) (e : NEvent),
      s.workoutRecords.length = maxRecordsSize →
      (∀ r ∈ s.workoutRecords, r.id ≠ e.id) →
      (addWorkoutRecord s e).workoutRecords =
        buildWorkoutRecord e :: s.workoutRecords.dropLast) := by
  have hlen100 : ∀ (ids : List String), ids = (events.map NEvent.id).reverse.take 100 →
      ids.length = 100 := by
    intro ids hEq
    rw [hEq, List.length_take, List.length_reverse, List.length_map, hlen]
    omega
  have hfeedIds :
      (events.foldl (fun st e => addNoteToFeed st e none) initialState).runningNotesFeed.map
        FeedNote.id = ((events.map NEvent.id).reverse).take maxFeedSize := by
    rw [foldl_addNoteToFeed_feed, initialState_runningNotesFeed,
      foldl_dedupInsert_ids maxFeedSize FeedNote.id (fun e => buildFeedNote e none) events
        (by simpa using hnodup)]
    simp
  have hexIds :
      (events.foldl addExerciseTemplate initialState).exerciseTemplates.map
        ExerciseTemplate.id = ((events.map NEvent.id).reverse).take maxTemplatesSize := by
    rw [foldl_addExerciseTemplate_templates, initialState_exerciseTemplates,
      foldl_dedupInsert_ids maxTemplatesSize ExerciseTemplate.id buildExerciseTemplate events
        (by simpa using hnodup)]
    simp
  have hwtIds :
      (events.foldl addWorkoutTemplate initialState).workoutTemplates.map
        WorkoutTemplate.id = ((events.map NEvent.id).reverse).take maxTemplatesSize := by
    rw [foldl_addWorkoutTemplate_templates, initialState_workoutTemplates,
      foldl_dedupInsert_ids maxTemplatesSize WorkoutTemplate.id buildWorkoutTemplate events
        (by simpa using hnodup)]
    simp
  have hwrIds :
      (events.foldl addWorkoutRecord initialState).workoutRecords.map
        WorkoutRecord.id = ((events.map NEvent.id).reverse).take maxRecordsSize := by
    rw [foldl_addWorkoutRecord_records, initialState_workoutRecords,
      foldl_dedupInsert_ids maxRecordsSize WorkoutRecord.id buildWorkoutRecord events
        (by simpa using hnodup)]
    simp
  refine ⟨⟨hfeedIds, ?_⟩, ⟨hexIds, ?_⟩, ⟨hwtIds, ?_⟩, ⟨hwrIds, ?_⟩, ?_, ?_⟩
  · have := hlen100 _ hfeedIds
    rwa [List.length_map] at this
  · have := hlen100 _ hexIds
    rwa [List.length_map] at this
  · have := hlen100 _ hwtIds
    rwa [List.length_map] at this
  · have := hlen100 _ hwrIds
    rwa [List.length_map] at this
  · intro s e ty hfull hfresh
    rw [addNoteToFeed_feed_eq,
      dedupInsert_fresh _ _ _ _ (by simpa using hfresh),
      show maxFeedSize = 99 + 1 from rfl, List.take_succ_cons,
      List.dropLast_eq_take, hfull,
      show maxFeedSize - 1 = 99 from rfl]
  · intro s e hfull hfresh
    rw [addWorkoutRecord_records_eq,
      dedupInsert_fresh _ _ _ _ (by simpa using hfresh),
      show maxRecordsSize = 99 + 1 from rfl, List.take_succ_cons,
      List.dropLast_eq_take, hfull,
      show maxRecordsSize - 1 = 99 from rfl]

/-- 101 events with pairwise distinct one-character ids, used by the C2
witness. -/
def testEvents : List NEvent :=
  (List.range 101).map (fun n =>
    { id := String.mk [Char.ofNat (33 + n)], pubkey := "p", kind := 1301,
      created_at := (n : Int), tags := [], content := "", relay := none })

/-- Witness for C2: the capacity theorem applied to 101 concretely distinct
events (k = 1). -/
theorem c2_store_capacity_witness :
    (testEvents.map NEvent.id).Nodup ∧ testEvents.length = 100 + 1 ∧ 1 ≤ 1 ∧
    (((testEvents.foldl (fun st e => addNoteToFeed st e none) initialState).runningNotesFeed.map
        FeedNote.id = ((testEvents.map NEvent.id).reverse).take maxFeedSize ∧
      (testEvents.foldl (fun st e => addNoteToFeed st e none)
          initialState).runningNotesFeed.length = maxFeedSize) ∧
    ((testEvents.foldl addExerciseTemplate initialState).exerciseTemplates.map
        ExerciseTemplate.id = ((testEvents.map NEvent.id).reverse).take maxTemplatesSize ∧
      (testEvents.foldl addExerciseTemplate initialState).exerciseTemplates.length
        = maxTemplatesSize) ∧
    ((testEvents.foldl addWorkoutTemplate initialState).workoutTemplates.map
        WorkoutTemplate.id = ((testEvents.map NEvent.id).reverse).take maxTemplatesSize ∧
      (testEvents.foldl addWorkoutTemplate initialState).workoutTemplates.length
        = maxTemplatesSize) ∧
    ((testEvents.foldl addWorkoutRecord initialState).workoutRecords.map
        WorkoutRecord.id = ((testEvents.map NEvent.id).reverse).take maxRecordsSize ∧
      (testEvents.foldl addWorkoutRecord initialState).workoutRecords.length
        = maxRecordsSize) ∧
    (∀ (s : DVMState) (e : NEvent) (ty : Option String),
      s.runningNotesFeed.length = maxFeedSize →
      (∀ note ∈ s.runningNotesFeed, note.id ≠ e.id) →
      (addNoteToFeed s e ty).runningNotesFeed =
        buildFeedNote e ty :: s.runningNotesFeed.dropLast) ∧
    (∀ (s : DVMState) (e : NEvent),
      s.workoutRecords.length = maxRecordsSize →
      (∀ r ∈ s.workoutRecords, r.id ≠ e.id) →
      (addWorkoutRecord s e).workoutRecords =
        buildWorkoutRecord e :: s.workoutRecords.dropLast)) :=
  ⟨by decide, by decide, by decide, c2_store_capacity testEvents 1 (by decide) (by decide) (by decide)⟩

/-! ### Claim C5: cumulative duration summation -/

/-- The value in seconds of one `TIME_REGEX` match, per its sub-pattern: this
is the claim-side valuation (`H:MM:SS`, `MM:SS`, `N` hours, `N` minutes, `N`
seconds). -/
def timeMatchValue : TimeMatch → Nat
  | .hms a b c => parseNatDigits a * 3600 + parseNatDigits b * 60 + parseNatDigits c
  | .ms a b => parseNatDigits a * 60 + parseNatDigits b
  | .hours n _ => parseNatDigits n * 3600
  | .minutes n _ => parseNatDigits n * 60
  | .seconds n _ => parseNatDigits n

/-- A match is well formed when its captured unit-word slice starts with the
letter of its alternative; every match produced by `matchTimeAt` is. -/
def TimeMatch.wellFormed : TimeMatch → Prop
  | .hours _ w => startsWithLower w 'h' = true
  | .minutes _ w => startsWithLower w 'm' = true
  | .seconds _ w => startsWithLower w 's' = true
  | _ => True

theorem matchLitCI_lower : ∀ (pat s cap r : List Char),
    matchLitCI pat s = some (cap, r) → cap.map Char.toLower = pat
  | [], s, cap, r => by
    intro h
    simp only [matchLitCI, Option.some.injEq, Prod.mk.injEq] at h
    obtain ⟨h1, h2⟩ := h
    subst h1
    rfl
  | p :: ps, [], cap, r => by
    intro h
    simp [matchLitCI] at h
  | p :: ps, c :: cs, cap, r => by
    intro h
    simp only [matchLitCI] at h
    split at h
    · cases hm : matchLitCI ps cs with
      | none => rw [hm] at h; exact absurd h (by simp)
      | some pr =>
        obtain ⟨cap2, r2⟩ := pr
        rw [hm] at h
        simp only [Option.some.injEq, Prod.mk.injEq] at h
        obtain ⟨h1, h2⟩ := h
        subst h1
        rw [List.map_cons, matchLitCI_lower ps cs cap2 r2 hm]
        simp [*]
    · exact absurd h (by simp)

theorem matchAltCI_mem : ∀ (alts : List (List Char)) (s cap r : List Char),
    matchAltCI alts s = some (cap, r) → ∃ alt ∈ alts, cap.map Char.toLower = alt
  | [], s, cap, r => by
    intro h
    simp [matchAltCI] at h
  | alt :: alts, s, cap, r => by
    intro h
    simp only [matchAltCI] at h
    cases hm : matchLitCI alt s with
    | some pr =>
      obtain ⟨cap2, r2⟩ := pr
      rw [hm] at h
      simp only [Option.some.injEq, Prod.mk.injEq] at h
      obtain ⟨h1, h2⟩ := h
      subst h1
      exact ⟨alt, List.mem_cons_self _ _, matchLitCI_lower alt s cap2 r2 hm⟩
    | none =>
      rw [hm] at h
      obtain ⟨a, ha, hl⟩ := matchAltCI_mem alts s cap r h
      exact ⟨a, List.mem_cons_of_mem _ ha, hl⟩

theorem matchAltCI_head_lower (alts : List (List Char)) (c0 : Char)
    (halts : ∀ alt ∈ alts, ∃ t, alt = c0 :: t) (s cap r : List Char)
    (h : matchAltCI alts s = some (cap, r)) : startsWithLower cap c0 = true := by
  obtain ⟨alt, hmem, hl⟩ := matchAltCI_mem alts s cap r h
  obtain ⟨t, rfl⟩ := halts alt hmem
  cases cap with
  | nil => simp at hl
  | cons x xs =>
    rw [List.map_cons] at hl
    have hx : x.toLower = c0 := (List.cons_eq_cons.mp hl).1
    simp [startsWithLower, hx]

theorem matchTimeColon_shape (s : List Char) (m : TimeMatch) (r : List Char)
    (h : matchTimeColon s = some (m, r)) :
    (∃ a b c, m = .hms a b c) ∨ ∃ a b, m = .ms a b := by
  unfold matchTimeColon at h
  split at h
  · exact absurd h (by simp)
  next a b r3 =>
    split at h
    next r4 =>
      split at h
      · simp only [Option.some.injEq, Prod.mk.injEq] at h
        exact Or.inr ⟨_, _, h.1.symm⟩
      · simp only [Option.some.injEq, Prod.mk.injEq] at h
        exact Or.inl ⟨_, _, _, h.1.symm⟩
    next =>
      simp only [Option.some.injEq, Prod.mk.injEq] at h
      exact Or.inr ⟨_, _, h.1.symm⟩

theorem matchTimeWord_wellFormed (s : List Char) (m : TimeMatch) (r : List Char)
    (h : matchTimeWord s = some (m, r)) : m.wellFormed := by
  unfold matchTimeWord at h
  split at h
  · exact absurd h (by simp)
  · split at h
    next w r2 heq =>
      simp only [Option.some.injEq, Prod.mk.injEq] at h
      rw [← h.1]
      exact matchAltCI_head_lower hourWords 'h'
        (by intro alt hm; fin_cases hm <;> exact ⟨_, rfl⟩) _ _ _ heq
    next =>
      split at h
      next w r2 heq =>
        simp only [Option.some.injEq, Prod.mk.injEq] at h
        rw [← h.1]
        exact matchAltCI_head_lower minuteWords 'm'
          (by intro alt hm; fin_cases hm <;> exact ⟨_, rfl⟩) _ _ _ heq
      next =>
        split at h
        next w r2 heq =>
          simp only [Option.some.injEq, Prod.mk.injEq] at h
          rw [← h.1]
          exact matchAltCI_head_lower secondWords 's'
            (by intro alt hm; fin_cases hm <;> exact ⟨_, rfl⟩) _ _ _ heq
        next => exact absurd h (by simp)

theorem matchTimeAt_wellFormed (s : List Char) (m : TimeMatch) (r : List Char)
    (h : matchTimeAt s = some (m, r)) : m.wellFormed := by
  unfold matchTimeAt at h
  split at h
  next res heq =>
    simp only [Option.some.injEq] at h
    subst h
    rcases matchTimeColon_shape s m r heq with ⟨a, b, c, rfl⟩ | ⟨a, b, rfl⟩ <;> trivial
  next => exact matchTimeWord_wellFormed s m r h

theorem timeScan_wellFormed : ∀ (fuel : Nat) (s : List Char) (m : TimeMatch),
    m ∈ timeScan fuel s → m.wellFormed := by
  intro fuel
  induction fuel with
  | zero => intro s m h; simp [timeScan] at h
  | succ n ih =>
    intro s m h
    cases s with
    | nil => simp [timeScan] at h
    | cons c cs =>
      simp only [timeScan] at h
      split at h
      next mm r heq =>
        rcases List.mem_cons.mp h with rfl | h2
        · exact matchTimeAt_wellFormed _ _ _ heq
        · exact ih r m h2
      next => exact ih cs m h

theorem addMatchSeconds_wellFormed (total : Nat) (m : TimeMatch) (h : m.wellFormed) :
    addMatchSeconds total m = total + timeMatchValue m := by
  cases m with
  | hms a b c => simp only [addMatchSeconds, timeMatchValue]; omega
  | ms a b => simp only [addMatchSeconds, timeMatchValue]; omega
  | hours n w =>
    have hw : startsWithLower w 'h' = true := h
    simp [addMatchSeconds, timeMatchValue, hw]
  | minutes n w =>
    have hw : startsWithLower w 'm' = true := h
    simp [addMatchSeconds, timeMatchValue, hw]
  | seconds n w =>
    have hw : startsWithLower w 's' = true := h
    simp [addMatchSeconds, timeMatchValue, hw]

theorem foldl_addMatchSeconds : ∀ (tms : List TimeMatch),
    (∀ m ∈ tms, m.wellFormed) →
    ∀ total, tms.foldl addMatchSeconds total = total + (tms.map timeMatchValue).sum
  | [], _, total => by simp
  | m :: ms, hwf, total => by
    rw [List.foldl_cons, addMatchSeconds_wellFormed _ _ (hwf m (List.mem_cons_self _ _)),
      foldl_addMatchSeconds ms (fun x hx => hwf x (List.mem_cons_of_mem _ hx)),
      List.map_cons, List.sum_cons]
    omega

/-- Claim C5: for every input text, the duration field is present exactly when
the `TIME_REGEX` scan finds at least one match anywhere in the text, and its
`totalSeconds` equals the sum of the per-sub-pattern second values over *all*
matches — every match is accumulated into one cumulative total, not just the
first. -/
theorem c5_duration_sums_all_matches (content : String) (m : MeasurementSet)
    (h : runningNotesTask content = .ok m) :
    (m.time.isSome ↔ timeScan content.data.length content.data ≠ []) ∧
    (∀ t, m.time = some t →
      t.totalSeconds = ((timeScan content.data.length content.data).map timeMatchValue).sum) := by
  rw [runningNotesTask_ok h]
  constructor
  · simp only [extractData]
    split
    next heq => simp only [heq, Option.isSome_none, Bool.false_eq_true, false_iff, ne_eq,
      not_true_eq_false, not_false_eq_true]
    next heq => simp only [heq, Option.isSome_some, true_iff, ne_eq, not_false_eq_true]
  · intro t ht
    simp only [extractData] at ht
    split at ht
    · exact absurd ht (by simp)
    · cases ht
      show (mkTimeData _).totalSeconds = _
      simp only [mkTimeData]
      rw [foldl_addMatchSeconds _ (fun x hx => timeScan_wellFormed _ _ x hx) 0]
      omega

/-- Witness for C5 at the spec's own multi-duration example text
`"warmed up 10 minutes, ran for 45:30"` (the 10-minute and 45:30 phrases
sum). -/
theorem c5_duration_sums_all_matches_witness :
    runningNotesTask "warmed up 10 minutes, ran for 45:30" =
      .ok (extractData "warmed up 10 minutes, ran for 45:30".data) ∧
    (((extractData "warmed up 10 minutes, ran for 45:30".data).time.isSome ↔
        timeScan "warmed up 10 minutes, ran for 45:30".data.length
          "warmed up 10 minutes, ran for 45:30".data ≠ []) ∧
     (∀ t, (extractData "warmed up 10 minutes, ran for 45:30".data).time = some t →
        t.totalSeconds =
          ((timeScan "warmed up 10 minutes, ran for 45:30".data.length
              "warmed up 10 minutes, ran for 45:30".data).map timeMatchValue).sum)) :=
  ⟨rfl, c5_duration_sums_all_matches _ _ rfl⟩

/-! ### Claim C4: derived pace presence and mutual exclusivity -/

/-- Claim C4: `calculatedPace` is present iff explicit `pace` is absent and
both distance and duration are present; `pace` and `calculatedPace` are never
both present; and when present the derived pace equals
`duration.totalSeconds / distance.value` floored to whole minutes and seconds
(the JS `%` on the nonnegative quotient), with the distance's unit. -/
theorem c4_calculated_pace (content : String) (m : MeasurementSet)
    (h : runningNotesTask content = .ok m) :
    (m.calculatedPace.isSome ↔ m.pace = none ∧ m.distance.isSome ∧ m.time.isSome) ∧
    ¬(m.pace.isSome ∧ m.calculatedPace.isSome) ∧
    (∀ cp, m.calculatedPace = some cp →
      ∃ d t, m.distance = some d ∧ m.time = some t ∧
        cp.minutes = ⌊((t.totalSeconds : ℚ) / d.value) / 60⌋ ∧
        cp.seconds = ⌊(t.totalSeconds : ℚ) / d.value -
          60 * ⌊((t.totalSeconds : ℚ) / d.value) / 60⌋⌋ ∧
        cp.unit = d.unit) := by
  rw [runningNotesTask_ok h]
  simp only [extractData]
  generalize (findDistance content.data).map mkDistance = D
  generalize (if timeScan content.data.length content.data = [] then none
      else some (mkTimeData (timeScan content.data.length content.data))) = T
  generalize (findPace content.data).map mkPace = P
  rcases D with _ | d <;> rcases T with _ | t <;> rcases P with _ | p <;>
    simp [mkCalculatedPace]

/-- Witness for C4 at the concrete input `"Ran 5km in 25:30"`. -/
theorem c4_calculated_pace_witness :
    runningNotesTask "Ran 5km in 25:30" = .ok (extractData "Ran 5km in 25:30".data) ∧
    (((extractData "Ran 5km in 25:30".data).calculatedPace.isSome ↔
        (extractData "Ran 5km in 25:30".data).pace = none ∧
        (extractData "Ran 5km in 25:30".data).distance.isSome ∧
        (extractData "Ran 5km in 25:30".data).time.isSome) ∧
     ¬((extractData "Ran 5km in 25:30".data).pace.isSome ∧
        (extractData "Ran 5km in 25:30".data).calculatedPace.isSome) ∧
     (∀ cp, (extractData "Ran 5km in 25:30".data).calculatedPace = some cp →
        ∃ d t, (extractData "Ran 5km in 25:30".data).distance = some d ∧
          (extractData "Ran 5km in 25:30".data).time = some t ∧
          cp.minutes = ⌊((t.totalSeconds : ℚ) / d.value) / 60⌋ ∧
          cp.seconds = ⌊(t.totalSeconds : ℚ) / d.value -
            60 * ⌊((t.totalSeconds : ℚ) / d.value) / 60⌋⌋ ∧
          cp.unit = d.unit)) :=
  ⟨rfl, c4_calculated_pace "Ran 5km in 25:30" (extractData "Ran 5km in 25:30".data) rfl⟩

/-! ### Claim C8: zero-variance pace list gives consistent, not improving -/

theorem sum_const_rat (xs : List ℚ) (c : ℚ) (h : ∀ x ∈ xs, x = c) :
    xs.sum = c * xs.length := by
  induction xs with
  | nil => simp
  | cons x l ih =>
    rw [List.sum_cons, ih (fun y hy => h y (List.mem_cons_of_mem _ hy)),
      h x (List.mem_cons_self _ _), List.length_cons]
    push_cast
    ring

theorem sum_zero_of_all_zero (xs : List ℚ) (h : ∀ x ∈ xs, x = 0) : xs.sum = 0 := by
  rw [sum_const_rat xs 0 h, zero_mul]

theorem filterMap_timestamp_length (l : List Activity)
    (h : ∀ a ∈ l, a.timestamp ≠ none) :
    (l.filterMap (fun a => a.timestamp)).length = l.length := by
  induction l with
  | nil => rfl
  | cons a as ih =>
    rw [List.filterMap_cons]
    cases hts : a.timestamp with
    | none => exact absurd hts (h a (List.mem_cons_self _ _))
    | some ts => simp [ih (fun b hb => h b (List.mem_cons_of_mem _ hb))]

theorem withPace_all (l : List Activity)
    (hall : ∀ a ∈ l,
      (a.extractedData.pace.orElse fun _ => a.extractedData.calculatedPace).map
        (fun p => p.minutes * 60 + p.seconds) = some 300 ∧ a.timestamp ≠ none) :
    (l.filterMap (fun a =>
      match a.extractedData.pace.orElse (fun _ => a.extractedData.calculatedPace),
          a.timestamp with
      | some p, some ts => some (ts, p.minutes * 60 + p.seconds)
      | _, _ => none)).length = l.length ∧
    ∀ x ∈ (l.filterMap (fun a =>
      match a.extractedData.pace.orElse (fun _ => a.extractedData.calculatedPace),
          a.timestamp with
      | some p, some ts => some (ts, p.minutes * 60 + p.seconds)
      | _, _ => none)), x.2 = 300 := by
  induction l with
  | nil => exact ⟨rfl, by simp⟩
  | cons a as ih =>
    obtain ⟨hmap, hts⟩ := hall a (List.mem_cons_self _ _)
    obtain ⟨ihlen, ihval⟩ := ih (fun b hb => hall b (List.mem_cons_of_mem _ hb))
    cases hp : a.extractedData.pace.orElse fun _ => a.extractedData.calculatedPace with
    | none => rw [hp] at hmap; exact absurd hmap (by simp)
    | some p =>
      cases hts' : a.timestamp with
      | none => exact absurd hts' hts
      | some ts =>
        rw [hp] at hmap
        have hval : p.minutes * 60 + p.seconds = 300 := by
          simpa using hmap
        refine ⟨?_, ?_⟩
        · rw [List.filterMap_cons, hp, hts']
          simp [ihlen]
        · intro x hx
          rw [List.filterMap_cons, hp, hts'] at hx
          rcases List.mem_cons.mp hx with rfl | hx2
          · exact hval
          · exact ihval x hx2

theorem trendOf_const (pts : List (Int × Int)) (hpos : 0 < pts.length)
    (hval : ∀ x ∈ pts, x.2 = 300) :
    (trendOf pts).improving = false ∧ (trendOf pts).consistent := by
  have hpaces : ∀ q ∈ pts.map (fun x => ((x.2 : Int) : ℚ)), q = 300 := by
    intro q hq
    obtain ⟨x, hx, rfl⟩ := List.mem_map.mp hq
    exact_mod_cast congrArg (fun z : Int => (z : ℚ)) (hval x hx)
  have hne : ((pts.length : ℚ)) ≠ 0 := by
    have h0 : (0 : ℚ) < (pts.length : ℚ) := by exact_mod_cast hpos
    exact ne_of_gt h0
  have havg : (pts.map (fun x => ((x.2 : Int) : ℚ))).sum / ((pts.length : ℚ)) = 300 := by
    rw [sum_const_rat _ 300 hpaces, List.length_map, mul_div_assoc, div_self hne, mul_one]
  simp only [trendOf]
  rw [havg]
  have hnum : (((pts.map (fun x => ((x.1 : Int) : ℚ))).zip
      (pts.map (fun x => ((x.2 : Int) : ℚ)))).map
      (fun tp => (tp.1 - (pts.map (fun x => ((x.1 : Int) : ℚ))).sum / ((pts.length : ℚ))) *
        (tp.2 - 300))).sum = 0 := by
    refine sum_zero_of_all_zero _ ?_
    intro y hy
    obtain ⟨tp, htp, rfl⟩ := List.mem_map.mp hy
    rw [hpaces tp.2 (List.of_mem_zip htp).2, sub_self, mul_zero]
  have hvar : ((pts.map (fun x => ((x.2 : Int) : ℚ))).map (fun p => (p - 300) ^ 2)).sum = 0 := by
    refine sum_zero_of_all_zero _ ?_
    intro y hy
    obtain ⟨p, hp, rfl⟩ := List.mem_map.mp hy
    rw [hpaces p hp, sub_self]
    ring
  constructor
  · rw [hnum, zero_div]
    exact decide_eq_false (lt_irrefl (0 : ℚ))
  · show Real.sqrt _ / _ < 1 / 10
    rw [hvar, zero_div]
    simp only [Rat.cast_zero, Real.sqrt_zero, zero_div]
    norm_num

theorem analyzePaceTrend_const (l : List Activity) (h3 : 3 ≤ l.length)
    (hall : ∀ a ∈ l,
      (a.extractedData.pace.orElse fun _ => a.extractedData.calculatedPace).map
        (fun p => p.minutes * 60 + p.seconds) = some 300 ∧ a.timestamp ≠ none) :
    (analyzePaceTrend l).improving = false ∧ (analyzePaceTrend l).consistent := by
  obtain ⟨hlen, hval⟩ := withPace_all l hall
  have hslen : (paceTimePoints l).length = l.length := by
    rw [paceTimePoints, List.length_mergeSort, hlen]
  have hsval : ∀ x ∈ paceTimePoints l, x.2 = 300 := by
    intro x hx
    exact hval x (List.mem_mergeSort.mp (by rw [paceTimePoints] at hx; exact hx))
  simp only [analyzePaceTrend]
  rw [if_neg (by rw [hslen]; omega)]
  exact trendOf_const _ (by rw [hslen]; omega) hsval

/-- Claim C8: for every list of at least three activities, each carrying a
timestamp and an (explicit-or-derived) pace of exactly 300 seconds, the
summary's consistency flag holds and the improving flag is false: the pace
values have zero variance (coefficient of variation 0 < 0.10) and the
least-squares slope is 0, not strictly negative. -/
theorem c8_zero_variance_trend (l : List Activity) (h3 : 3 ≤ l.length)
    (hall : ∀ a ∈ l,
      (a.extractedData.pace.orElse fun _ => a.extractedData.calculatedPace).map
        (fun p => p.minutes * 60 + p.seconds) = some 300 ∧ a.timestamp ≠ none) :
    ∃ s, activitySummaryTask (some l) = .ok s ∧
      s.trendImprovement = false ∧ s.trendConsistency := by
  have hne : ¬ l.length = 0 := by omega
  have hts : (l.filterMap (fun a => a.timestamp)).length = l.length :=
    filterMap_timestamp_length l (fun a ha => (hall a ha).2)
  have hcond : l.length ≥ 3 ∧
      ((l.filterMap (fun a => a.timestamp)).mergeSort (fun x y => decide (x ≤ y))).length ≥ 3 := by
    constructor
    · omega
    · rw [List.length_mergeSort, hts]; omega
  refine ⟨buildSummary l, by simp [activitySummaryTask, hne], ?_, ?_⟩
  · show (buildSummary l).trendImprovement = false
    simp only [buildSummary]
    rw [if_pos hcond]
    exact (analyzePaceTrend_const l h3 hall).1
  · show (buildSummary l).trendConsistency
    simp only [buildSummary]
    rw [if_pos hcond]
    exact (analyzePaceTrend_const l h3 hall).2

/-- Concrete 5:00/km pace used by the C8 witness. -/
def paceW : Pace := { minutes := 5, seconds := 0, unit := "km", formatted := "5:00/km" }

/-- Concrete activity with a timestamp and the 5:00 pace. -/
def activityW (ts : Int) : Activity :=
  { timestamp := some ts,
    extractedData :=
      { distance := none, time := none, pace := some paceW, calculatedPace := none } }

/-- Three concrete activities with ascending timestamps and identical paces. -/
def activitiesW : List Activity := [activityW 0, activityW 1000, activityW 2000]

/-- Witness for C8 at the three concrete 300-second-pace activities. -/
theorem c8_zero_variance_trend_witness :
    3 ≤ activitiesW.length ∧
    (∀ a ∈ activitiesW,
      (a.extractedData.pace.orElse fun _ => a.extractedData.calculatedPace).map
        (fun p => p.minutes * 60 + p.seconds) = some 300 ∧ a.timestamp ≠ none) ∧
    (∃ s, activitySummaryTask (some activitiesW) = .ok s ∧
      s.trendImprovement = false ∧ s.trendConsistency) :=
  ⟨by decide, by decide, c8_zero_variance_trend activitiesW (by decide) (by decide)⟩

end RunstrDVM
